import Mathlib

/-!
Verification of the `erastusk/kafka_microservice` (gpscords) repository.

The repository moves GPS coordinate records from WebSocket clients to a
Kafka topic and back out through a consumer.  The embedding below models
the data path of the Go code:

* `types/types.go` — the `SourceCoords` struct (JSON tags `obuid`, `lat`,
  `lon`).  Go `float64` coordinate values are modelled as rationals `ℚ`:
  every finite float is a rational, Go's float formatting round-trips
  exactly, and none of the verified properties depend on rounding.
* `data_receiver_kafka_producer/handlers/receive.go` — `ReadMessageLoop`:
  the per-connection read/publish loop.
* `data_receiver_kafka_producer/kafka/kafkaproducer.go` — `KafkaWrite`
  (one `Produce` whose error return is discarded, then one blocking
  `Flush(15 * 1000)`), and the handlers `MiddlewareRead` timing wrapper.
* `producer/middleware.go` — `MiddlewareReceiver` timing wrapper.
* `kafka_reader/kafka/kafkaconsumer.go` — `kafkaconsumeLoop`: the poll
  loop of the consumer.

JSON is modelled at the value level (`Jval`): `encoding/json` marshalling
of a struct becomes construction of a JSON object, and unmarshalling
becomes field-by-field decoding with Go's semantics (missing fields keep
the destination's previous value, `null` is a no-op, a wrong-typed field
records the first error but decoding of the remaining fields continues,
unknown keys are ignored).  A wire message is an `Option Jval`: `none`
stands for bytes that are not syntactically valid JSON.  Go's
case-insensitive fallback for key matching is omitted: every key this
system produces is already the exact lowercase tag.

I/O is modelled as an explicit event trace (`Ev`): broker produce/flush
calls, channel sends, and log lines.
-/

namespace GpsCords

/-- Embeds `types.SourceCoords` (types/types.go:30-34): `OBUID int`,
`Lat float64`, `Lon float64`, with JSON tags `obuid`, `lat`, `lon`.
Floats modelled as `ℚ`. -/
structure SourceCoords where
  OBUID : Int
  Lat : ℚ
  Lon : ℚ
deriving Repr, DecidableEq

/-- The Go zero value of `SourceCoords` (`var recv types.SourceCoords`,
`t := types.SourceCoords{}`). -/
def zeroSourceCoords : SourceCoords := ⟨0, 0, 0⟩

/-- JSON values, as far as this system's wire format needs them. -/
inductive Jval where
  | num (q : ℚ)
  | str (s : String)
  | jbool (b : Bool)
  | null
  | obj (fields : List (String × Jval))
deriving Repr

/-- The validity condition the spec's data model states for a
coordinate record: latitude in [-90, 90], longitude in [-180, 180]. -/
def validRecord (r : SourceCoords) : Prop :=
  -90 ≤ r.Lat ∧ r.Lat ≤ 90 ∧ -180 ≤ r.Lon ∧ r.Lon ≤ 180

instance (r : SourceCoords) : Decidable (validRecord r) := by
  unfold validRecord; infer_instance

/-- Embeds `json.Marshal` of a `SourceCoords` value: a JSON object whose fields
are the struct's fields in declaration order, under their JSON tags.
(`resp, err := json.Marshal(recv)` in receive.go:47; for the `ℚ` model
of finite floats marshalling always succeeds.) -/
def marshal (r : SourceCoords) : Jval :=
  .obj [("obuid", .num (r.OBUID : ℚ)), ("lat", .num r.Lat), ("lon", .num r.Lon)]

/-- Go `encoding/json` keeps the first decode error it meets and keeps
going (`d.saveError`). -/
def firstErr (a b : Option String) : Option String :=
  match a with
  | some e => some e
  | none => b

/-- Decoding of one JSON object field into the `SourceCoords` being
unmarshalled: `obuid` requires an integral number (Go refuses a fraction
for an `int` field), `lat`/`lon` accept any number, `null` is a no-op,
unknown keys are ignored, anything else is a type error that leaves the
field unchanged. -/
def setField (r : SourceCoords) (key : String) (v : Jval) : SourceCoords × Option String :=
  if key = "obuid" then
    match v with
    | .num q =>
        if q.den = 1 then ({ r with OBUID := q.num }, none)
        else (r, some "json: cannot unmarshal number into Go struct field SourceCoords.obuid of type int")
    | .null => (r, none)
    | _ => (r, some "json: cannot unmarshal value into Go struct field SourceCoords.obuid of type int")
  else if key = "lat" then
    match v with
    | .num q => ({ r with Lat := q }, none)
    | .null => (r, none)
    | _ => (r, some "json: cannot unmarshal value into Go struct field SourceCoords.lat of type float64")
  else if key = "lon" then
    match v with
    | .num q => ({ r with Lon := q }, none)
    | .null => (r, none)
    | _ => (r, some "json: cannot unmarshal value into Go struct field SourceCoords.lon of type float64")
  else (r, none)

/-- Field-by-field decoding of a JSON object's field list into a
`SourceCoords`, Go style: later duplicate keys overwrite, the first
error is reported but decoding continues. -/
def unmarshalFields (r : SourceCoords) (err : Option String) :
    List (String × Jval) → SourceCoords × Option String
  | [] => (r, err)
  | (k, v) :: rest =>
      let s := setField r k v
      unmarshalFields s.1 (firstErr err s.2) rest

/-- Embeds `json.Unmarshal(data, &recv)` with `recv` holding `r`: a JSON object
is decoded field by field (missing fields keep `r`'s values), any other
JSON value is a type error that leaves `r` unchanged. -/
def unmarshalInto (r : SourceCoords) : Jval → SourceCoords × Option String
  | .obj fs => unmarshalFields r none fs
  | _ => (r, some "json: cannot unmarshal value into Go value of type types.SourceCoords")

/-- Unmarshalling of raw wire bytes: `none` models bytes that are not
valid JSON (syntax error, destination untouched), `some j` is decoded
as `unmarshalInto`. -/
def unmarshalBytes (r : SourceCoords) : Option Jval → SourceCoords × Option String
  | none => (r, some "invalid character looking for beginning of value")
  | some j => unmarshalInto r j

/-- Observable events of the data path: broker produce and flush calls,
consumer-channel sends, and log lines. -/
inductive Ev where
  | produce (payload : Jval)
  | flush (timeoutMs : Nat)
  | sent (rec : SourceCoords)
  | logged (msg : String)
deriving Repr

/-- Embeds `KafkaProducer.KafkaWrite` (kafkaproducer.go:128-145).  One
`Producer.Produce` call — `produceErr`, its synchronous error return, is
discarded by the code, so it does not occur in the body — followed by one
blocking `Producer.Flush(15 * 1000)`; `flushRemaining`, the flush's
return, only triggers a warning log when positive.  The Go function
returns nothing. -/
def KafkaWrite (produceErr : Option String) (flushRemaining : Nat) (word : Jval) : List Ev :=
  [Ev.produce word, Ev.flush (15 * 1000)]
    ++ (if flushRemaining > 0 then
          [Ev.logged "WARNING: messages still in queue after flush timeout"]
        else [])

/-- Embeds `handlers.MiddlewareRead` (middleware handler in the receiver): the
single call `t.KafkaWrite(w)` wrapped in a deferred timing log. -/
def MiddlewareRead (produceErr : Option String) (flushRemaining : Nat) (w : Jval) : List Ev :=
  KafkaWrite produceErr flushRemaining w ++ [Ev.logged "Writing to Kafka took"]

/-- Embeds `MiddlewareReceiver` (producer/middleware.go:24-35): runs `h` once
and returns its triple unchanged, adding only a deferred timing log.
`h` is modelled with its own event trace so that "exactly the effects of
`h`" is expressible. -/
def MiddlewareReceiver (h : Unit → (Int × ℚ × ℚ) × List Ev) : (Int × ℚ × ℚ) × List Ev :=
  let res := h ()
  (res.1, res.2 ++ [Ev.logged "GPS data generation took"])

/-- Embeds `handlers.ReadMessageLoop` (receive.go:28-51).  The inbound
connection is the list of wire messages; the loop `ReadJSON`s each into
the persistent `recv` variable.  On a `ReadJSON` error — bad bytes, a
type mismatch, or the end of the connection — the code logs
"Unexpected closure" and `break`s.  On success it logs, re-marshals
`recv`, and hands the bytes to `MiddlewareRead`. -/
def ReadMessageLoop (produceErr : Option String) (flushRemaining : Nat) :
    SourceCoords → List (Option Jval) → List Ev
  | _, [] => [Ev.logged "Unexpected closure"]
  | recv, m :: rest =>
      match unmarshalBytes recv m with
      | (_, some _) => [Ev.logged "Unexpected closure"]
      | (recv', none) =>
          Ev.logged "kafka receiver" ::
            (MiddlewareRead produceErr flushRemaining (marshal recv')
              ++ ReadMessageLoop produceErr flushRemaining recv' rest)

/-- The successive values of `recv` over the maximal prefix of the
connection that decodes without a `ReadJSON` error: exactly the records
the loop publishes, in order. -/
def decodedSeq (recv : SourceCoords) : List (Option Jval) → List SourceCoords
  | [] => []
  | m :: rest =>
      match unmarshalBytes recv m with
      | (_, some _) => []
      | (recv', none) => recv' :: decodedSeq recv' rest

/-- The payloads of the broker produce calls in a trace, in order. -/
def producesOf (evs : List Ev) : List Jval :=
  evs.filterMap fun e =>
    match e with
    | .produce p => some p
    | _ => none

/-- The broker-facing events (produce and flush calls) of a trace. -/
def pubEventsOf (evs : List Ev) : List Ev :=
  evs.filter fun e =>
    match e with
    | .produce _ => true
    | .flush _ => true
    | _ => false

/-- A trace with the log lines removed: the data-path events. -/
def dataEventsOf (evs : List Ev) : List Ev :=
  evs.filter fun e =>
    match e with
    | .logged _ => false
    | _ => true

/-- The records sent on the consumer's output channel, in order. -/
def sentOf (evs : List Ev) : List SourceCoords :=
  evs.filterMap fun e =>
    match e with
    | .sent r => some r
    | _ => none

/-- The broker events of one synchronous publish per record: one produce
of the marshalled record followed by one 15-second flush, record after
record. -/
def perMsgPub : List SourceCoords → List Ev
  | [] => []
  | c :: rest => Ev.produce (marshal c) :: Ev.flush (15 * 1000) :: perMsgPub rest

/-- One event the consumer's `Poll(100)` can yield: a broker message
(whose payload bytes may not be valid JSON), a `kafka.Error`, or a poll
timeout (`nil`, which matches no case of the switch). -/
inductive PollEv where
  | message (value : Option Jval)
  | kerror
  | timeout
deriving Repr

/-- Embeds `kafkaconsumeLoop` (kafkaconsumer.go:73-94).  The persistent `t` is
declared before the loop; each `*kafka.Message` logs the headers, then
`json.Unmarshal(e.Value, &t)` — an error is only logged — and `t` is
sent on `msgChan` unconditionally.  A `kafka.Error` prints and stops the
loop; a poll timeout falls through. -/
def kafkaconsumeLoop (t : SourceCoords) : List PollEv → List Ev
  | [] => []
  | .message v :: rest =>
      match unmarshalBytes t v with
      | (t', e) =>
          Ev.logged "headers" ::
            ((match e with
              | some _ => [Ev.logged "Couldn't unmarshal message"]
              | none => []) ++
              (Ev.sent t' :: kafkaconsumeLoop t' rest))
  | .kerror :: _ => [Ev.logged "Error"]
  | .timeout :: rest => kafkaconsumeLoop t rest

/-- Keys of a JSON object, in order. -/
def objKeys : Jval → List String
  | .obj fs => fs.map Prod.fst
  | _ => []

/-- Modelled from the spec: the session overflow policy (spec section 4.2)
is part of the generalized bridge design and is not implemented anywhere
under src/; "fail-open" preserves liveness of the connection,
"fail-closed" preserves ordering strictness. -/
inductive OverflowPolicy where
  | failOpen
  | failClosed
deriving Repr, DecidableEq

/-- Modelled from the spec: the Source Session state machine
(spec section 4.2, Connecting → Active → Draining → Closed), absent from
src/. -/
inductive SessionState where
  | connecting
  | active
  | draining
  | closed
deriving Repr, DecidableEq

/-- Modelled from the spec: the bridge-side state one enqueue attempt
sees — the bounded Publish Queue (spec section 4.3, capacity fixed at
construction), the per-session drop counter, and the session state; the
Publish Queue component is absent from src/. -/
structure BridgeState where
  capacity : Nat
  queue : List SourceCoords
  dropCount : Nat
  session : SessionState
deriving Repr, DecidableEq

/-- Modelled from the spec: the outcome of one enqueue attempt by a
Source Session. -/
inductive EnqueueOutcome where
  | enqueued
  | dropped
  | sessionClosed
deriving Repr, DecidableEq

/-- Modelled from the spec: `enqueue` into the Publish Queue
(spec sections 4.2-4.3), absent from src/.  With room, the record is
appended.  When the queue is at capacity the caller's timeout has
expired and the configured policy decides: fail-open drops the record
and increments the drop counter (the session stays as it was, i.e.
Active); fail-closed closes the session. -/
def enqueue (pol : OverflowPolicy) (s : BridgeState) (r : SourceCoords) :
    EnqueueOutcome × BridgeState :=
  if s.queue.length < s.capacity then
    (.enqueued, { s with queue := s.queue ++ [r] })
  else
    match pol with
    | .failOpen => (.dropped, { s with dropCount := s.dropCount + 1 })
    | .failClosed => (.sessionClosed, { s with session := .closed })

/-- A concrete bridge state whose queue is at capacity, for evaluating
the enqueue policy. -/
def fullBridge : BridgeState :=
  ⟨1, [zeroSourceCoords], 0, SessionState.active⟩

/-! Helper lemmas about the embedding, shared by the claim theorems. -/

/-- Unmarshalling the marshalled form of a record recovers that record
exactly, whatever the destination previously held: all three fields are
present with well-typed values, so every field of `prev` is overwritten. -/
theorem unmarshalInto_marshal (prev r : SourceCoords) :
    unmarshalInto prev (marshal r) = (r, none) := by
  simp [marshal, unmarshalInto, unmarshalFields, setField, firstErr,
    Rat.den_intCast, Rat.num_intCast]

/-- Corresponding fact at the wire level. -/
theorem unmarshalBytes_marshal (prev r : SourceCoords) :
    unmarshalBytes prev (some (marshal r)) = (r, none) :=
  unmarshalInto_marshal prev r

/-- Produce payloads distribute over trace concatenation. -/
theorem producesOf_append (a b : List Ev) :
    producesOf (a ++ b) = producesOf a ++ producesOf b := by
  simp [producesOf]

/-- A log line contributes no produce payload. -/
theorem producesOf_cons_logged (s : String) (evs : List Ev) :
    producesOf (Ev.logged s :: evs) = producesOf evs := by
  simp [producesOf]

/-- Broker-facing events distribute over trace concatenation. -/
theorem pubEventsOf_append (a b : List Ev) :
    pubEventsOf (a ++ b) = pubEventsOf a ++ pubEventsOf b := by
  simp [pubEventsOf]

/-- A log line is not a broker-facing event. -/
theorem pubEventsOf_cons_logged (s : String) (evs : List Ev) :
    pubEventsOf (Ev.logged s :: evs) = pubEventsOf evs := by
  simp [pubEventsOf]

/-- Data-path events distribute over trace concatenation. -/
theorem dataEventsOf_append (a b : List Ev) :
    dataEventsOf (a ++ b) = dataEventsOf a ++ dataEventsOf b := by
  simp [dataEventsOf]

/-- The possible flush-warning log contributes no produce payload. -/
theorem producesOf_warn (fr : Nat) :
    producesOf
      (if fr > 0 then [Ev.logged "WARNING: messages still in queue after flush timeout"]
       else []) = [] := by
  split <;> simp [producesOf]

/-- The possible flush-warning log is not a broker-facing event. -/
theorem pubEventsOf_warn (fr : Nat) :
    pubEventsOf
      (if fr > 0 then [Ev.logged "WARNING: messages still in queue after flush timeout"]
       else []) = [] := by
  split <;> simp [pubEventsOf]

/-- Produce payloads of one `KafkaWrite` call: exactly the one word. -/
theorem producesOf_KafkaWrite (pe : Option String) (fr : Nat) (w : Jval) :
    producesOf (KafkaWrite pe fr w) = [w] := by
  rw [KafkaWrite, producesOf_append, producesOf_warn]
  simp [producesOf]

/-- Broker-facing events of one `KafkaWrite` call: one produce, then one
flush with the 15-second timeout. -/
theorem pubEventsOf_KafkaWrite (pe : Option String) (fr : Nat) (w : Jval) :
    pubEventsOf (KafkaWrite pe fr w) = [Ev.produce w, Ev.flush (15 * 1000)] := by
  rw [KafkaWrite, pubEventsOf_append, pubEventsOf_warn]
  simp [pubEventsOf]

/-- Produce payloads of one `MiddlewareRead` call: same as its
`KafkaWrite`. -/
theorem producesOf_MiddlewareRead (pe : Option String) (fr : Nat) (w : Jval) :
    producesOf (MiddlewareRead pe fr w) = [w] := by
  rw [MiddlewareRead, producesOf_append, producesOf_KafkaWrite]
  simp [producesOf]

/-- Broker-facing events of one `MiddlewareRead` call: same as its
`KafkaWrite`. -/
theorem pubEventsOf_MiddlewareRead (pe : Option String) (fr : Nat) (w : Jval) :
    pubEventsOf (MiddlewareRead pe fr w) = [Ev.produce w, Ev.flush (15 * 1000)] := by
  rw [MiddlewareRead, pubEventsOf_append, pubEventsOf_KafkaWrite]
  simp [pubEventsOf]

/-- Produce payloads of the read loop: the successively decoded records,
marshalled, in decode order. -/
theorem producesOf_ReadMessageLoop (pe : Option String) (fr : Nat)
    (recv : SourceCoords) (msgs : List (Option Jval)) :
    producesOf (ReadMessageLoop pe fr recv msgs) = (decodedSeq recv msgs).map marshal := by
  induction msgs generalizing recv with
  | nil => simp [ReadMessageLoop, decodedSeq, producesOf]
  | cons m rest ih =>
    rcases hu : unmarshalBytes recv m with ⟨recv2, e⟩
    cases e with
    | some err =>
        simp [ReadMessageLoop, decodedSeq, hu, producesOf]
    | none =>
        simp only [ReadMessageLoop, decodedSeq, hu]
        rw [producesOf_cons_logged, producesOf_append, producesOf_MiddlewareRead, ih]
        simp

/-- Broker-facing events of the read loop: per decoded record, one
produce of its marshalled form immediately followed by one 15-second
flush. -/
theorem pubEventsOf_ReadMessageLoop (pe : Option String) (fr : Nat)
    (recv : SourceCoords) (msgs : List (Option Jval)) :
    pubEventsOf (ReadMessageLoop pe fr recv msgs) = perMsgPub (decodedSeq recv msgs) := by
  induction msgs generalizing recv with
  | nil => simp [ReadMessageLoop, decodedSeq, pubEventsOf, perMsgPub]
  | cons m rest ih =>
    rcases hu : unmarshalBytes recv m with ⟨recv2, e⟩
    cases e with
    | some err =>
        simp [ReadMessageLoop, decodedSeq, hu, pubEventsOf, perMsgPub]
    | none =>
        simp only [ReadMessageLoop, decodedSeq, hu]
        rw [pubEventsOf_cons_logged, pubEventsOf_append, pubEventsOf_MiddlewareRead, ih]
        simp [perMsgPub]

/-! The claims. -/

/-- C1 (counterexample): the inbound message
`{"obuid": 1, "lat": 200, "lon": 0}` has latitude 200, outside [-90, 90],
yet decoding it returns no error and the read loop publishes the record
to the broker — contradicting the claim that such a record yields a
decode error and is never published. -/
theorem C1_counterexample :
    ¬ ((200 : ℚ) ≤ 90) ∧
    (unmarshalBytes zeroSourceCoords
        (some (Jval.obj [("obuid", Jval.num 1), ("lat", Jval.num 200), ("lon", Jval.num 0)]))).2
      = none ∧
    (unmarshalBytes zeroSourceCoords
        (some (Jval.obj [("obuid", Jval.num 1), ("lat", Jval.num 200), ("lon", Jval.num 0)]))).1.Lat
      = 200 ∧
    producesOf
        (ReadMessageLoop none 0 zeroSourceCoords
          [some (Jval.obj [("obuid", Jval.num 1), ("lat", Jval.num 200), ("lon", Jval.num 0)])])
      = [marshal ⟨1, 200, 0⟩] :=
  ⟨by decide, by decide, by decide, rfl⟩

/-- C1 (amended): the codec boundary performs no coordinate validation:
an inbound record whose latitude or longitude is out of range decodes
without error and is published to the broker all the same, and a message
missing required fields also decodes without error. -/
theorem C1_amended_no_range_validation (obuid : Int) (lat lon : ℚ)
    (hout : lat < -90 ∨ 90 < lat ∨ lon < -180 ∨ 180 < lon) :
    (unmarshalBytes zeroSourceCoords (some (marshal ⟨obuid, lat, lon⟩))).2 = none ∧
    producesOf
        (ReadMessageLoop none 0 zeroSourceCoords [some (marshal ⟨obuid, lat, lon⟩)])
      = [marshal ⟨obuid, lat, lon⟩] ∧
    (unmarshalBytes zeroSourceCoords (some (Jval.obj [("obuid", Jval.num 17)]))).2 = none := by
  refine ⟨by rw [unmarshalBytes_marshal], ?_, by decide⟩
  rw [producesOf_ReadMessageLoop]
  simp [decodedSeq, unmarshalBytes_marshal]

/-- C1 (witness for the amended theorem), at latitude 200. -/
theorem C1_amended_witness :
    ((200 : ℚ) < -90 ∨ (90 : ℚ) < 200 ∨ (0 : ℚ) < -180 ∨ (180 : ℚ) < 0) ∧
    ((unmarshalBytes zeroSourceCoords (some (marshal ⟨1, 200, 0⟩))).2 = none ∧
      producesOf
          (ReadMessageLoop none 0 zeroSourceCoords [some (marshal ⟨1, 200, 0⟩)])
        = [marshal ⟨1, 200, 0⟩] ∧
      (unmarshalBytes zeroSourceCoords (some (Jval.obj [("obuid", Jval.num 17)]))).2 = none) :=
  ⟨by decide, C1_amended_no_range_validation 1 200 0 (by decide)⟩

/-- C2 (confirmed): for every valid coordinate record, unmarshalling the
marshalled form recovers exactly the record, whatever the decode
destination previously held: decode(encode(r)) == r. -/
theorem C2_decode_encode_roundtrip (prev r : SourceCoords) (hv : validRecord r) :
    unmarshalBytes prev (some (marshal r)) = (r, none) :=
  unmarshalBytes_marshal prev r

/-- C2 (witness), at the record (7, 10, 20) over destination (1, 2, 3). -/
theorem C2_decode_encode_roundtrip_witness :
    validRecord ⟨7, 10, 20⟩ ∧
    unmarshalBytes ⟨1, 2, 3⟩ (some (marshal ⟨7, 10, 20⟩)) = (⟨7, 10, 20⟩, none) :=
  ⟨by decide, C2_decode_encode_roundtrip ⟨1, 2, 3⟩ ⟨7, 10, 20⟩ (by decide)⟩

/-- C3 (confirmed): when one connection's inbound messages decode to the
records rs in that order, the read loop issues broker produce calls for
exactly those records, marshalled, in exactly that order — no per-source
reordering between read and publish. -/
theorem C3_per_source_publish_order (pe : Option String) (fr : Nat)
    (recv : SourceCoords) (msgs : List (Option Jval)) (rs : List SourceCoords)
    (h : decodedSeq recv msgs = rs) :
    producesOf (ReadMessageLoop pe fr recv msgs) = rs.map marshal := by
  rw [producesOf_ReadMessageLoop, h]

/-- C3 (witness), for three records r1, r2, r3 emitted in that order. -/
theorem C3_per_source_publish_order_witness :
    decodedSeq zeroSourceCoords
        [some (marshal ⟨1, 10, 20⟩), some (marshal ⟨2, 30, 40⟩), some (marshal ⟨3, 50, 60⟩)]
      = [⟨1, 10, 20⟩, ⟨2, 30, 40⟩, ⟨3, 50, 60⟩] ∧
    producesOf
        (ReadMessageLoop none 0 zeroSourceCoords
          [some (marshal ⟨1, 10, 20⟩), some (marshal ⟨2, 30, 40⟩), some (marshal ⟨3, 50, 60⟩)])
      = [marshal ⟨1, 10, 20⟩, marshal ⟨2, 30, 40⟩, marshal ⟨3, 50, 60⟩] :=
  ⟨by decide,
    C3_per_source_publish_order none 0 zeroSourceCoords _
      [⟨1, 10, 20⟩, ⟨2, 30, 40⟩, ⟨3, 50, 60⟩] (by decide)⟩

/-- C4 (counterexample): with the connection delivering a malformed
message and then a well-formed one, the read loop logs and terminates at
the malformed message: the whole trace is the closure log, so the
session does not continue reading, and the subsequent valid record is
never read or published — contradicting the claim that a decode failure
is recovered locally and the session continues. -/
theorem C4_counterexample :
    ReadMessageLoop none 0 zeroSourceCoords
        [some (Jval.str "junk"),
          some (Jval.obj [("obuid", Jval.num 2), ("lat", Jval.num 5), ("lon", Jval.num 6)])]
      = [Ev.logged "Unexpected closure"] :=
  rfl

/-- C4 (amended): a decode failure on an inbound message is logged and
the failing record is dropped (never published), but it is not recovered
locally: the read loop breaks, terminating the session, and subsequent
messages are not read. -/
theorem C4_amended_decode_failure_terminates (pe : Option String) (fr : Nat)
    (recv : SourceCoords) (m : Option Jval) (rest : List (Option Jval)) (e : String)
    (h : (unmarshalBytes recv m).2 = some e) :
    ReadMessageLoop pe fr recv (m :: rest) = [Ev.logged "Unexpected closure"] := by
  rcases hu : unmarshalBytes recv m with ⟨recv2, e2⟩
  rw [hu] at h
  have he : e2 = some e := h
  subst he
  simp [ReadMessageLoop, hu]

/-- C4 (witness for the amended theorem), at a malformed first message. -/
theorem C4_amended_witness :
    (unmarshalBytes zeroSourceCoords (some (Jval.str "junk"))).2
        = some "json: cannot unmarshal value into Go value of type types.SourceCoords" ∧
    ReadMessageLoop none 0 zeroSourceCoords [some (Jval.str "junk"), some Jval.null]
      = [Ev.logged "Unexpected closure"] :=
  ⟨rfl,
    C4_amended_decode_failure_terminates none 0 zeroSourceCoords (some (Jval.str "junk"))
      [some Jval.null] "json: cannot unmarshal value into Go value of type types.SourceCoords"
      rfl⟩

/-- C5 (confirmed): each `KafkaWrite` call makes exactly one produce
call followed by exactly one blocking flush with the 15-second
(15 * 1000 ms) timeout, and over a whole session every accepted message
contributes exactly this produce-then-flush pair, so no two records are
ever buffered between flushes. -/
theorem C5_synchronous_flush_per_message (pe : Option String) (fr : Nat) (w : Jval) :
    pubEventsOf (KafkaWrite pe fr w) = [Ev.produce w, Ev.flush (15 * 1000)] ∧
    ∀ (recv : SourceCoords) (msgs : List (Option Jval)),
      pubEventsOf (ReadMessageLoop pe fr recv msgs) = perMsgPub (decodedSeq recv msgs) :=
  ⟨pubEventsOf_KafkaWrite pe fr w,
    fun recv msgs => pubEventsOf_ReadMessageLoop pe fr recv msgs⟩

/-- C6 (confirmed): encoding a valid record always succeeds and yields a
JSON object with exactly the wire-format keys obuid, lat, lon in that
order, the obuid value being an integral number and lat/lon numbers. -/
theorem C6_encode_total_wire_format (r : SourceCoords) (hv : validRecord r) :
    marshal r
      = Jval.obj [("obuid", Jval.num (r.OBUID : ℚ)), ("lat", Jval.num r.Lat),
          ("lon", Jval.num r.Lon)] ∧
    objKeys (marshal r) = ["obuid", "lat", "lon"] ∧
    ((r.OBUID : ℚ)).den = 1 :=
  ⟨rfl, by simp [marshal, objKeys], Rat.den_intCast r.OBUID⟩

/-- C6 (witness), at the record (42, 40, -74). -/
theorem C6_encode_total_wire_format_witness :
    validRecord ⟨42, 40, -74⟩ ∧
    (marshal ⟨42, 40, -74⟩
        = Jval.obj [("obuid", Jval.num ((42 : Int) : ℚ)), ("lat", Jval.num 40),
            ("lon", Jval.num (-74))] ∧
      objKeys (marshal ⟨42, 40, -74⟩) = ["obuid", "lat", "lon"] ∧
      (((42 : Int) : ℚ)).den = 1) :=
  ⟨by decide, C6_encode_total_wire_format ⟨42, 40, -74⟩ (by decide)⟩

/-- C7 (confirmed): the timing middleware wrappers are identities on the
data path: `MiddlewareReceiver h` returns exactly the triple `h ()`
returns, adding no data-path effect beyond those of `h`, and
`MiddlewareRead` has exactly the data-path effects of the single
`KafkaWrite` call it wraps. -/
theorem C7_middleware_identity :
    (∀ h : Unit → (Int × ℚ × ℚ) × List Ev,
        (MiddlewareReceiver h).1 = (h ()).1 ∧
        dataEventsOf (MiddlewareReceiver h).2 = dataEventsOf (h ()).2) ∧
    (∀ (pe : Option String) (fr : Nat) (w : Jval),
        dataEventsOf (MiddlewareRead pe fr w) = dataEventsOf (KafkaWrite pe fr w)) := by
  constructor
  · intro h
    refine ⟨rfl, ?_⟩
    simp [MiddlewareReceiver, dataEventsOf_append, dataEventsOf]
  · intro pe fr w
    rw [MiddlewareRead, dataEventsOf_append]
    simp [dataEventsOf]

/-- C8 (confirmed, against the spec-modelled Publish Queue): when the
queue is at capacity and the policy is fail-open, an enqueue attempt
returns a drop, increments the drop counter, leaves the queue unchanged,
and the session remains Active. -/
theorem C8_fail_open_queue_full_drops (s : BridgeState) (r : SourceCoords)
    (hfull : s.capacity ≤ s.queue.length) (hact : s.session = SessionState.active) :
    (enqueue OverflowPolicy.failOpen s r).1 = EnqueueOutcome.dropped ∧
    (enqueue OverflowPolicy.failOpen s r).2.dropCount = s.dropCount + 1 ∧
    (enqueue OverflowPolicy.failOpen s r).2.session = SessionState.active ∧
    (enqueue OverflowPolicy.failOpen s r).2.queue = s.queue := by
  have hlt : ¬ s.queue.length < s.capacity := not_lt.mpr hfull
  simp [enqueue, hlt, hact]

/-- C8 (witness), at a capacity-1 queue already holding one record. -/
theorem C8_fail_open_queue_full_drops_witness :
    (fullBridge.capacity ≤ fullBridge.queue.length
        ∧ fullBridge.session = SessionState.active) ∧
    ((enqueue OverflowPolicy.failOpen fullBridge ⟨5, 1, 2⟩).1 = EnqueueOutcome.dropped ∧
      (enqueue OverflowPolicy.failOpen fullBridge ⟨5, 1, 2⟩).2.dropCount
          = fullBridge.dropCount + 1 ∧
      (enqueue OverflowPolicy.failOpen fullBridge ⟨5, 1, 2⟩).2.session
          = SessionState.active ∧
      (enqueue OverflowPolicy.failOpen fullBridge ⟨5, 1, 2⟩).2.queue = fullBridge.queue) :=
  ⟨⟨by decide, by decide⟩,
    C8_fail_open_queue_full_drops fullBridge ⟨5, 1, 2⟩ (by decide) (by decide)⟩

/-- C9 (confirmed): `KafkaWrite` returns normally whatever the outcome of
the `Produce` call: its whole behaviour — and hence the whole session
trace of the read loop — is independent of the discarded produce error,
so a session can never observe a publish failure. -/
theorem C9_produce_error_discarded (e1 e2 : Option String) (fr : Nat) (w : Jval) :
    KafkaWrite e1 fr w = KafkaWrite e2 fr w ∧
    ∀ (recv : SourceCoords) (msgs : List (Option Jval)),
      ReadMessageLoop e1 fr recv msgs = ReadMessageLoop e2 fr recv msgs := by
  refine ⟨rfl, ?_⟩
  intro recv msgs
  induction msgs generalizing recv with
  | nil => rfl
  | cons m rest ih =>
    rcases hu : unmarshalBytes recv m with ⟨recv2, e⟩
    cases e with
    | some err => simp [ReadMessageLoop, hu]
    | none => simp [ReadMessageLoop, hu, MiddlewareRead, KafkaWrite, ih]

/-- C10 (confirmed): in the consumer loop a message whose payload fails
to unmarshal still sends a value on the output channel: the error is
only logged, the previously decoded record is forwarded unchanged, the
loop continues, and on the first iteration the forwarded record is the
zero record. -/
theorem C10_malformed_forwards_previous (t : SourceCoords) (rest : List PollEv) :
    kafkaconsumeLoop t (PollEv.message none :: rest)
      = Ev.logged "headers" :: Ev.logged "Couldn't unmarshal message" ::
          Ev.sent t :: kafkaconsumeLoop t rest ∧
    sentOf (kafkaconsumeLoop zeroSourceCoords [PollEv.message none]) = [zeroSourceCoords] :=
  ⟨rfl, rfl⟩

end GpsCords
